import Mathlib

/-!
Verification development for the paying-zee seller dashboard
(`src/pages/SellerDashboard.tsx`).  The definitions below are a shallow
embedding of the Orders panel logic: field-for-field translations of the
TypeScript interfaces, the pure presentation helpers (`formatCurrency`,
`formatTime`), the list filter/search/sort pipeline (`filteredOrders`),
the client-side form validation (`submitShippingInfo`, `sendMessage`),
the fetch failure handlers (`fetchOrders`, `fetchOrderDetails`) modelled
as state transformers over the fetch outcome, and the status-gated
action footer of the order detail modal (`offeredActions`).

JavaScript specifics are modelled as follows: `Date` parsing
(`new Date(s).getTime()`) is an injected function `parse : String → Int`
producing epoch milliseconds; `Math.floor` of a division is `Int.fdiv`;
`toLocaleString("en-KE", maximumFractionDigits 0)` on an integral amount
is comma grouping of the decimal digits; `toLocaleDateString("en-KE")`
is kept abstract as the constructor `TimeDisplay.localeDate` carrying the
timestamp it would render; a JavaScript string is falsy exactly when it
is empty; `File` objects are identified by their names.
-/

namespace SellerDashboard

/-- Order status union type from the `Order` interface:
`"pending" | "accepted" | "shipped" | "completed" | "dispute" | "cancelled"`. -/
inductive OrderStatus where
  | pending
  | accepted
  | shipped
  | completed
  | dispute
  | cancelled
deriving DecidableEq, Repr

/-- The string literal each `OrderStatus` stands for (used where the code
compares `order.status` with a string such as `filterStatus`). -/
def OrderStatus.toStr : OrderStatus → String
  | .pending => "pending"
  | .accepted => "accepted"
  | .shipped => "shipped"
  | .completed => "completed"
  | .dispute => "dispute"
  | .cancelled => "cancelled"

/-- The `OrderShipping` interface. -/
structure OrderShipping where
  courierName : String
  trackingNumber : String
  estimatedDeliveryDate : String
  notes : Option String := none
  proofImages : Option (List String) := none
deriving DecidableEq, Repr

/-- The `TimelineEvent` interface. -/
structure TimelineEvent where
  title : String
  completed : Bool
  completedAt : Option String := none
deriving DecidableEq, Repr

/-- The `Order` interface.  Numeric fields (`quantity`, `amount`) are
integers; the display-only buyer reputation fields (`buyerMemberSince`,
`buyerRating`, `buyerPurchases`) are omitted because no panel logic reads
them (they are only interpolated into markup). -/
structure Order where
  id : String
  buyerName : String
  buyerPhone : String := ""
  buyerLocation : String := ""
  itemName : String := ""
  quantity : Int := 1
  amount : Int
  status : OrderStatus
  createdAt : String
  deadline : String := ""
  buyerMessage : Option String := none
  messageCreatedAt : Option String := none
  shipping : Option OrderShipping := none
  timeline : Option (List TimelineEvent) := none
deriving DecidableEq, Repr

/-- Comma grouping of a reversed digit list, three digits at a time
(helper for `formatNumberGrouped`). -/
def groupRev : List Char → List Char
  | a :: b :: c :: d :: rest => a :: b :: c :: ',' :: groupRev (d :: rest)
  | l => l

/-- Decimal rendering of a natural number with en-KE thousands grouping,
i.e. the value of `n.toLocaleString("en-KE", { maximumFractionDigits: 0 })`
for a non-negative integral `n`. -/
def formatNumberGrouped (n : Nat) : String :=
  String.mk (groupRev (toString n).data.reverse).reverse

/-- Locale rendering of a (possibly negative) integral JavaScript number
under `toLocaleString("en-KE", { maximumFractionDigits: 0 })`. -/
def localeGrouped (n : Int) : String :=
  if n < 0 then "-" ++ formatNumberGrouped n.natAbs else formatNumberGrouped n.natAbs

/-- The `formatCurrency` helper: a falsy (zero) amount renders as the
fixed string `KES 0`; otherwise `KES ` followed by the locale-grouped,
fractionless amount. -/
def formatCurrency (amount : Int) : String :=
  if amount = 0 then "KES 0"
  else "KES " ++ localeGrouped amount

/-- Result of the `formatTime` helper: either a string built in the code
itself, or the abstract locale-formatted absolute date
(`date.toLocaleDateString("en-KE")`) carrying the timestamp it renders. -/
inductive TimeDisplay where
  | text (s : String)
  | localeDate (timestampMs : Int)
deriving DecidableEq, Repr

/-- Body of `formatTime` after the falsy-string guard, as a function of
the delta `now - date` in milliseconds and of the parsed date timestamp.
Each integer division is floored (`Math.floor`). -/
def formatTimeDelta (diffMs dateMs : Int) : TimeDisplay :=
  let diffSecs := Int.fdiv diffMs 1000
  let diffMins := Int.fdiv diffSecs 60
  let diffHours := Int.fdiv diffMins 60
  let diffDays := Int.fdiv diffHours 24
  if diffSecs < 60 then .text "just now"
  else if diffMins < 60 then .text (toString diffMins ++ "m ago")
  else if diffHours < 24 then .text (toString diffHours ++ "h ago")
  else if diffDays = 1 then .text "yesterday"
  else if diffDays < 7 then .text (toString diffDays ++ "d ago")
  else .localeDate dateMs

/-- The `formatTime` helper: a falsy (empty) date string renders as
`unknown`; otherwise the relative/absolute rendering of the delta between
`nowMs` and the parsed timestamp. -/
def formatTime (parse : String → Int) (nowMs : Int) (dateString : String) : TimeDisplay :=
  if dateString = "" then .text "unknown"
  else formatTimeDelta (nowMs - parse dateString) (parse dateString)

/-- The detail modal renders the buyer message timestamp as
`formatTime(selectedOrder.messageCreatedAt || "")`: an absent optional
timestamp is passed as the empty string. -/
def messageTimeDisplay (parse : String → Int) (nowMs : Int)
    (messageCreatedAt : Option String) : TimeDisplay :=
  formatTime parse nowMs (messageCreatedAt.getD "")

/-- Character-list version of "starts with" (helper for `strIncludes`). -/
def charsStartWith : List Char → List Char → Bool
  | [], _ => true
  | _ :: _, [] => false
  | p :: ps, c :: cs => p = c && charsStartWith ps cs

/-- Character-list version of "contains as contiguous run" (helper for
`strIncludes`). -/
def charsContain (pat : List Char) : List Char → Bool
  | [] => pat.isEmpty
  | c :: cs => charsStartWith pat (c :: cs) || charsContain pat cs

/-- Substring containment, the model of JavaScript `String.includes`. -/
def strIncludes (s pat : String) : Bool :=
  charsContain pat.data s.data

/-- The status test inside `filteredOrders`:
`filterStatus === "all" || order.status === filterStatus`. -/
def matchesFilter (filterStatus : String) (o : Order) : Bool :=
  filterStatus = "all" || o.status.toStr = filterStatus

/-- The search test inside `filteredOrders`: an empty (falsy) query
passes, otherwise case-insensitive substring match of the query against
the order id or the buyer name. -/
def matchesSearch (searchQuery : String) (o : Order) : Bool :=
  searchQuery = ""
    || strIncludes o.id.toLower searchQuery.toLower
    || strIncludes o.buyerName.toLower searchQuery.toLower

/-- The combined predicate of the single `filter` pass in
`filteredOrders` (`matchesFilter && matchesSearch`). -/
def visibleFilter (filterStatus searchQuery : String) (o : Order) : Bool :=
  matchesFilter filterStatus o && matchesSearch searchQuery o

/-- The sort comparator of `filteredOrders`, rephrased as the boolean
relation `le a b ↔ compare(a, b) ≤ 0` expected by a stable sort:
`newest` compares parsed creation timestamps descending, `oldest`
ascending, `amount-high` amounts descending, `amount-low` ascending, and
any other sort key compares everything equal (comparator returns 0). -/
def sortLe (parse : String → Int) (sortBy : String) (a b : Order) : Bool :=
  if sortBy = "newest" then decide (parse b.createdAt ≤ parse a.createdAt)
  else if sortBy = "oldest" then decide (parse a.createdAt ≤ parse b.createdAt)
  else if sortBy = "amount-high" then decide (b.amount ≤ a.amount)
  else if sortBy = "amount-low" then decide (a.amount ≤ b.amount)
  else true

/-- The `filteredOrders` pipeline: one combined filter pass followed by a
stable sort under the selected comparator (ECMAScript `Array.sort` is
required to be stable, modelled by `List.mergeSort`). -/
def filteredOrders (parse : String → Int) (orders : List Order)
    (filterStatus searchQuery sortBy : String) : List Order :=
  (orders.filter (visibleFilter filterStatus searchQuery)).mergeSort
    (sortLe parse sortBy)

/-- Lifecycle actions the detail modal footer can offer. -/
inductive LifecycleAction where
  | accept
  | reject
  | addShippingInfo
  | updateProof
deriving DecidableEq, Repr

/-- The status-gated footer of `OrderDetailModal`: a `pending` order gets
the Reject and Accept buttons, an `accepted` order the Add Shipping Info
button, a `shipped` order the Update Proof button, every other status no
lifecycle button (the unconditional Close button is not a lifecycle
action). -/
def offeredActions (status : OrderStatus) : List LifecycleAction :=
  (if status = .pending then [.reject, .accept] else [])
    ++ (if status = .accepted then [.addShippingInfo] else [])
    ++ (if status = .shipped then [.updateProof] else [])

/-- Outcome of an awaited `fetch`: either the decoded payload of a 2xx
response, or a failure (network error or non-2xx, which the code turns
into a thrown `Error`) carrying the message of the caught `Error`
(empty when the failure carries no usable message, matching a falsy
`error.message`). -/
inductive FetchOutcome (α : Type) where
  | ok (value : α)
  | failure (message : String)
deriving DecidableEq, Repr

/-- The slice of the component state the modelled handlers read or
write: the `orders`, `selectedOrder` and `ui` `useState` hooks
(`orders` is `Order[] | null`, initially `null`). -/
structure PanelState where
  orders : Option (List Order)
  selectedOrder : Option Order
  loading : Bool
  orderDetailOpen : Bool
  shippingModalOpen : Bool
  proofUploadOpen : Bool
  messageModalOpen : Bool
  errorNotification : Option String
  successNotification : Option String
deriving DecidableEq, Repr

/-- Follow-up fetches a handler schedules after a successful mutation. -/
inductive Refetch where
  | list
  | detail (orderId : String)
deriving DecidableEq, Repr

/-- The `fetchOrders` handler as a state transformer over the fetch
outcome: it first sets `loading` and clears the error notification; on
success it stores `data.data || []`; on failure it sets the error
notification to the message of the failure (or the generic fallback when
that message is falsy) and sets the order list to `[]`; either way
`loading` ends up false. -/
def fetchOrders (st : PanelState) (r : FetchOutcome (List Order)) : PanelState :=
  let started := { st with loading := true, errorNotification := none }
  match r with
  | .ok data => { started with orders := some data, loading := false }
  | .failure m =>
      { started with
        errorNotification :=
          some (if m = "" then "Failed to load orders. Please try again." else m),
        orders := some [],
        loading := false }

/-- The `fetchOrderDetails` handler as a state transformer over the
fetch outcome: on success it stores the order and opens the detail
modal; on failure it sets the fixed error notification
`Failed to load order details` and touches nothing else (in particular
it does not change `orders` and does not toggle `loading`). -/
def fetchOrderDetails (st : PanelState) (r : FetchOutcome Order) : PanelState :=
  match r with
  | .ok o => { st with selectedOrder := some o, orderDetailOpen := true }
  | .failure _ =>
      { st with errorNotification := some "Failed to load order details" }

/-- The `acceptOrder` handler: on success it sets the success
notification and schedules a re-fetch of the list and of the accepted
order detail; on failure it sets the error notification (message of the
failure, or the generic fallback when that message is falsy). -/
def acceptOrder (st : PanelState) (orderId : String) (r : FetchOutcome Unit) :
    PanelState × List Refetch :=
  match r with
  | .ok _ =>
      ({ st with successNotification := some "Order accepted successfully!" },
       [.list, .detail orderId])
  | .failure m =>
      ({ st with
          errorNotification :=
            some (if m = "" then "Failed to accept order" else m) }, [])

/-- The `rejectOrder` handler: on success it sets the success
notification, closes the detail modal, and schedules a re-fetch of the
list only; on failure it sets the error notification (message of the
failure, or the generic fallback when that message is falsy). -/
def rejectOrder (st : PanelState) (r : FetchOutcome Unit) :
    PanelState × List Refetch :=
  match r with
  | .ok _ =>
      ({ st with successNotification := some "Order rejected",
                 orderDetailOpen := false }, [.list])
  | .failure m =>
      ({ st with
          errorNotification :=
            some (if m = "" then "Failed to reject order" else m) }, [])

/-- The `ShippingFormState` interface (`File` objects stand as their
names). -/
structure ShippingFormState where
  courierName : String
  trackingNumber : String
  estimatedDeliveryDate : String
  notes : String
  proofImages : List String
deriving DecidableEq, Repr

/-- What the client-side validation guard of `submitShippingInfo` does
before any network interaction: either it blocks with a local error
notification and returns, or it dispatches the POST carrying the form
data. -/
inductive ShippingSubmission where
  | blocked (errorNotification : String)
  | post (url : String) (fields : List (String × String)) (images : List String)
deriving DecidableEq, Repr

/-- The dispatch decision of `submitShippingInfo`: when the courier
name, the tracking number or the estimated delivery date is falsy
(empty), block with the local error `Please fill in all required
fields` and issue no request; otherwise POST the multipart form (the
notes and the proof images go along whether empty or not). -/
def submitShippingInfo (orderId : String) (f : ShippingFormState) : ShippingSubmission :=
  if f.courierName = "" ∨ f.trackingNumber = "" ∨ f.estimatedDeliveryDate = "" then
    .blocked "Please fill in all required fields"
  else
    .post ("/api/v1/seller/orders/" ++ orderId ++ "/shipping")
      [("courierName", f.courierName),
       ("trackingNumber", f.trackingNumber),
       ("estimatedDeliveryDate", f.estimatedDeliveryDate),
       ("notes", f.notes)]
      f.proofImages

/-- Whitespace test used by the model of JavaScript `String.trim`. -/
def isWhitespaceChar (c : Char) : Bool :=
  c = ' ' || c = '\t' || c = '\n' || c = '\r'

/-- Model of JavaScript `String.trim`: strip leading and trailing
whitespace. -/
def jsTrim (s : String) : String :=
  String.mk ((s.data.dropWhile isWhitespaceChar).reverse.dropWhile
    isWhitespaceChar).reverse

/-- What the client-side validation guard of `sendMessage` does before
any network interaction. -/
inductive MessageSubmission where
  | blocked (errorNotification : String)
  | post (url : String) (message : String)
deriving DecidableEq, Repr

/-- The dispatch decision of `sendMessage`: when `messageInput.trim()`
is falsy (empty), block with the local error `Message cannot be empty`
and issue no request; otherwise POST the (untrimmed) message. -/
def sendMessage (orderId : String) (messageInput : String) : MessageSubmission :=
  if jsTrim messageInput = "" then .blocked "Message cannot be empty"
  else .post ("/api/v1/seller/orders/" ++ orderId ++ "/messages") messageInput

/-- Sample order used by concrete witnesses and counterexamples. -/
def orderA : Order :=
  { id := "ORD-1", buyerName := "Jane", amount := 1000,
    status := .pending, createdAt := "2025-01-01T10:00:00Z" }

/-- Second sample order (same creation timestamp key under a constant
parse function, larger amount). -/
def orderB : Order :=
  { id := "ORD-2", buyerName := "Amina", amount := 2000,
    status := .accepted, createdAt := "2025-01-01T10:00:00Z" }

/-- Sample panel state holding one fetched order and no notification. -/
def samplePanelState : PanelState :=
  { orders := some [orderA], selectedOrder := none, loading := false,
    orderDetailOpen := false, shippingModalOpen := false,
    proofUploadOpen := false, messageModalOpen := false,
    errorNotification := none, successNotification := none }

/-- C1: the lifecycle actions offered by the detail modal footer are a
function of the order status: `pending` offers exactly Reject and Accept,
`accepted` exactly Add Shipping Info, `shipped` exactly Update Proof, and
`completed`, `dispute`, `cancelled` offer no lifecycle action. -/
theorem offeredActions_by_status :
    offeredActions .pending = [.reject, .accept] ∧
    offeredActions .accepted = [.addShippingInfo] ∧
    offeredActions .shipped = [.updateProof] ∧
    offeredActions .completed = [] ∧
    offeredActions .dispute = [] ∧
    offeredActions .cancelled = [] := by
  decide

/-- C2: shipping submission issues no request and sets the local error
notification when the courier name, the tracking number or the estimated
delivery date is empty; when all three are non-empty it dispatches the
POST request whatever the notes and proof images are. -/
theorem submitShippingInfo_validation (orderId : String) (f : ShippingFormState) :
    ((f.courierName = "" ∨ f.trackingNumber = "" ∨ f.estimatedDeliveryDate = "") →
      submitShippingInfo orderId f = .blocked "Please fill in all required fields") ∧
    (f.courierName ≠ "" → f.trackingNumber ≠ "" → f.estimatedDeliveryDate ≠ "" →
      submitShippingInfo orderId f =
        .post ("/api/v1/seller/orders/" ++ orderId ++ "/shipping")
          [("courierName", f.courierName),
           ("trackingNumber", f.trackingNumber),
           ("estimatedDeliveryDate", f.estimatedDeliveryDate),
           ("notes", f.notes)]
          f.proofImages) := by
  constructor
  · intro h
    unfold submitShippingInfo
    rw [if_pos h]
  · intro h1 h2 h3
    unfold submitShippingInfo
    rw [if_neg (by tauto)]

/-- Witness for C2: the empty form is blocked without a request; a form
with the three mandatory fields and nothing else dispatches the POST. -/
theorem submitShippingInfo_validation_witness :
    submitShippingInfo "ORD-1" ⟨"", "", "", "", []⟩ =
      .blocked "Please fill in all required fields" ∧
    submitShippingInfo "ORD-1" ⟨"dhl", "KN2025-891234", "2026-10-20", "", []⟩ =
      .post "/api/v1/seller/orders/ORD-1/shipping"
        [("courierName", "dhl"), ("trackingNumber", "KN2025-891234"),
         ("estimatedDeliveryDate", "2026-10-20"), ("notes", "")] [] :=
  ⟨(submitShippingInfo_validation "ORD-1" ⟨"", "", "", "", []⟩).1 (Or.inl rfl),
   (submitShippingInfo_validation "ORD-1"
      ⟨"dhl", "KN2025-891234", "2026-10-20", "", []⟩).2
     (by decide) (by decide) (by decide)⟩

/-- C3: sending a message issues no request and sets the local error
notification when the input is empty after trimming whitespace;
otherwise it dispatches the POST request (with the untrimmed input). -/
theorem sendMessage_validation (orderId messageInput : String) :
    (jsTrim messageInput = "" →
      sendMessage orderId messageInput = .blocked "Message cannot be empty") ∧
    (jsTrim messageInput ≠ "" →
      sendMessage orderId messageInput =
        .post ("/api/v1/seller/orders/" ++ orderId ++ "/messages") messageInput) := by
  constructor
  · intro h
    unfold sendMessage
    rw [if_pos h]
  · intro h
    unfold sendMessage
    rw [if_neg h]

/-- Witness for C3: a whitespace-only input is blocked; a non-blank
input is posted. -/
theorem sendMessage_validation_witness :
    sendMessage "ORD-1" " " = .blocked "Message cannot be empty" ∧
    sendMessage "ORD-1" "hello" =
      .post "/api/v1/seller/orders/ORD-1/messages" "hello" :=
  ⟨(sendMessage_validation "ORD-1" " ").1 (by decide),
   (sendMessage_validation "ORD-1" "hello").2 (by decide)⟩

/-- C4 counterexample: a detail fetch failure carrying the message
`boom` does not surface that message (the notification is the fixed
string `Failed to load order details`) and does not set the order list
to the empty sequence (the list keeps its previous value). -/
theorem fetchOrderDetails_failure_counterexample :
    (fetchOrderDetails samplePanelState (.failure "boom")).errorNotification ≠
      some "boom" ∧
    (fetchOrderDetails samplePanelState (.failure "boom")).orders ≠ some [] := by
  decide

/-- C4 (amended): a list fetch failure sets the error notification to
the failure message (generic fallback when that message is empty) and
sets the order list to the empty sequence; a detail fetch failure sets
the fixed notification `Failed to load order details` and leaves the
order list unchanged. -/
theorem fetch_failure_behaviour (st : PanelState) (m : String) :
    (fetchOrders st (.failure m)).errorNotification =
      some (if m = "" then "Failed to load orders. Please try again." else m) ∧
    (fetchOrders st (.failure m)).orders = some [] ∧
    (fetchOrderDetails st (.failure m)).errorNotification =
      some "Failed to load order details" ∧
    (fetchOrderDetails st (.failure m)).orders = st.orders :=
  ⟨rfl, rfl, rfl, rfl⟩

/-- C5: boundary values of the relative time formatter as a pure
function of (now, timestamp): a 59 second delta renders `just now`,
60 seconds `1m ago`, 3599 seconds `59m ago`, 3600 seconds `1h ago`,
exactly 86400 seconds `yesterday`, 6 days `6d ago`, and 7 days the
absolute locale-formatted date. -/
theorem formatTime_boundaries (parse : String → Int) (now : Int) (s : String)
    (hs : s ≠ "") :
    (now - parse s = 59000 → formatTime parse now s = .text "just now") ∧
    (now - parse s = 60000 → formatTime parse now s = .text "1m ago") ∧
    (now - parse s = 3599000 → formatTime parse now s = .text "59m ago") ∧
    (now - parse s = 3600000 → formatTime parse now s = .text "1h ago") ∧
    (now - parse s = 86400000 → formatTime parse now s = .text "yesterday") ∧
    (now - parse s = 518400000 → formatTime parse now s = .text "6d ago") ∧
    (now - parse s = 604800000 → formatTime parse now s = .localeDate (parse s)) := by
  have hf : formatTime parse now s = formatTimeDelta (now - parse s) (parse s) := by
    unfold formatTime
    rw [if_neg hs]
  refine ⟨?_, ?_, ?_, ?_, ?_, ?_, ?_⟩ <;> intro h <;> rw [hf, h] <;> rfl

/-- Witness for C5: the seven boundaries evaluated at a constant parse
function returning epoch 0. -/
theorem formatTime_boundaries_witness :
    formatTime (fun _ => 0) 59000 "t" = .text "just now" ∧
    formatTime (fun _ => 0) 60000 "t" = .text "1m ago" ∧
    formatTime (fun _ => 0) 3599000 "t" = .text "59m ago" ∧
    formatTime (fun _ => 0) 3600000 "t" = .text "1h ago" ∧
    formatTime (fun _ => 0) 86400000 "t" = .text "yesterday" ∧
    formatTime (fun _ => 0) 518400000 "t" = .text "6d ago" ∧
    formatTime (fun _ => 0) 604800000 "t" = .localeDate 0 :=
  ⟨(formatTime_boundaries (fun _ => 0) 59000 "t" (by decide)).1 (by decide),
   (formatTime_boundaries (fun _ => 0) 60000 "t" (by decide)).2.1 (by decide),
   (formatTime_boundaries (fun _ => 0) 3599000 "t" (by decide)).2.2.1 (by decide),
   (formatTime_boundaries (fun _ => 0) 3600000 "t" (by decide)).2.2.2.1 (by decide),
   (formatTime_boundaries (fun _ => 0) 86400000 "t" (by decide)).2.2.2.2.1 (by decide),
   (formatTime_boundaries (fun _ => 0) 518400000 "t" (by decide)).2.2.2.2.2.1 (by decide),
   (formatTime_boundaries (fun _ => 0) 604800000 "t" (by decide)).2.2.2.2.2.2 (by decide)⟩

/-- C6: the status filter value `all` passes every order, and an empty
search query passes every order of the status-filtered list: both stages
are identities in those cases. -/
theorem filter_search_identity (L : List Order) (fs : String) :
    L.filter (fun o => matchesFilter "all" o) = L ∧
    L.filter (fun o => visibleFilter fs "" o) =
      L.filter (fun o => matchesFilter fs o) := by
  constructor
  · exact List.filter_eq_self.mpr (fun o _ => rfl)
  · exact List.filter_congr (fun o _ => by simp [visibleFilter, matchesSearch])

/-- Transitivity of the sort comparator relation, whichever sort key is
selected (helper for the stability theorem). -/
theorem sortLe_trans (parse : String → Int) (sk : String) (a b c : Order)
    (hab : sortLe parse sk a b = true) (hbc : sortLe parse sk b c = true) :
    sortLe parse sk a c = true := by
  unfold sortLe at hab hbc ⊢
  split_ifs at hab hbc ⊢ <;> simp_all <;> omega

/-- Totality of the sort comparator relation, whichever sort key is
selected (helper for the stability theorem). -/
theorem sortLe_total (parse : String → Int) (sk : String) (a b : Order) :
    (sortLe parse sk a b || sortLe parse sk b a) = true := by
  unfold sortLe
  split_ifs <;> simp <;> omega

/-- C7: the filter/search/sort pipeline is a pure function (two
evaluations on identical inputs agree) and is stable: two orders with
the same parsed creation timestamp (for `newest`/`oldest`) or the same
amount (for `amount-high`/`amount-low`) that survive filtering keep
their original relative order in the output. -/
theorem filteredOrders_pure_and_stable (parse : String → Int) (L : List Order)
    (fs q sk : String) (a b : Order) :
    filteredOrders parse L fs q sk = filteredOrders parse L fs q sk ∧
    ((sk = "newest" ∨ sk = "oldest") →
      parse a.createdAt = parse b.createdAt →
      [a, b].Sublist (L.filter (visibleFilter fs q)) →
      [a, b].Sublist (filteredOrders parse L fs q sk)) ∧
    ((sk = "amount-high" ∨ sk = "amount-low") →
      a.amount = b.amount →
      [a, b].Sublist (L.filter (visibleFilter fs q)) →
      [a, b].Sublist (filteredOrders parse L fs q sk)) := by
  refine ⟨rfl, ?_, ?_⟩
  · intro hsk hk hsub
    unfold filteredOrders
    refine List.pair_sublist_mergeSort (sortLe_trans parse sk) (sortLe_total parse sk)
      ?_ hsub
    rcases hsk with h | h <;> subst h <;> simp [sortLe, hk]
  · intro hsk hk hsub
    unfold filteredOrders
    refine List.pair_sublist_mergeSort (sortLe_trans parse sk) (sortLe_total parse sk)
      ?_ hsub
    rcases hsk with h | h <;> subst h <;> simp [sortLe, hk]

/-- Witness for C7: two sample orders sharing a creation timestamp key
keep their relative order through the pipeline under the `newest` sort. -/
theorem filteredOrders_pure_and_stable_witness :
    [orderA, orderB].Sublist
      (filteredOrders (fun _ => 0) [orderA, orderB] "all" "" "newest") := by
  refine (filteredOrders_pure_and_stable (fun _ => 0) [orderA, orderB]
      "all" "" "newest" orderA orderB).2.1 (Or.inl rfl) rfl ?_
  have h : [orderA, orderB].filter (visibleFilter "all" "") = [orderA, orderB] := by
    decide
  rw [h]

/-- C8: the currency formatter renders a zero amount as the fixed
string `KES 0` and a positive amount as `KES ` followed by the grouped,
fractionless locale rendering; in particular 1234567 renders as
`KES 1,234,567`. -/
theorem formatCurrency_spec :
    formatCurrency 0 = "KES 0" ∧
    (∀ a : Int, 0 < a → formatCurrency a = "KES " ++ localeGrouped a) ∧
    formatCurrency 1234567 = "KES 1,234,567" := by
  refine ⟨rfl, ?_, by decide⟩
  intro a ha
  unfold formatCurrency
  rw [if_neg (by omega)]

/-- Witness for C8: the positive-amount clause applied at 5000. -/
theorem formatCurrency_spec_witness :
    formatCurrency 5000 = "KES " ++ localeGrouped 5000 :=
  formatCurrency_spec.2.1 5000 (by decide)

/-- C9: a successful reject closes the detail view, sets the success
notification, schedules exactly a re-fetch of the order list (so no
re-fetch of the rejected order detail), and leaves the local order list
and selected order untouched. -/
theorem rejectOrder_success_effects (st : PanelState) :
    (rejectOrder st (.ok ())).1.orderDetailOpen = false ∧
    (rejectOrder st (.ok ())).1.successNotification = some "Order rejected" ∧
    (rejectOrder st (.ok ())).2 = [.list] ∧
    (rejectOrder st (.ok ())).1.orders = st.orders ∧
    (rejectOrder st (.ok ())).1.selectedOrder = st.selectedOrder :=
  ⟨rfl, rfl, rfl, rfl, rfl⟩

/-- C10: the relative time formatter is total and returns the fixed
string `unknown` on the empty (falsy) timestamp string, and the detail
modal passes a missing optional message timestamp as the empty string,
so its rendering is `unknown` rather than an error. -/
theorem formatTime_empty_unknown (parse : String → Int) (now : Int) :
    formatTime parse now "" = .text "unknown" ∧
    messageTimeDisplay parse now none = .text "unknown" :=
  ⟨rfl, rfl⟩

end SellerDashboard
